import Mathlib

namespace MCCSE

/-- Character-list version of a prefix test (structurally recursive so the kernel
can evaluate it). -/
def listStartsWith : List Char → List Char → Bool
  | [], _ => true
  | _ :: _, [] => false
  | p :: ps, c :: cs => p == c && listStartsWith ps cs

/-- Python's `str.startswith`: `strStartsWith s p` is true when `p` is a prefix
of `s`.  Used to model `fuel.label.startswith("SMR")` in `app.py`. -/
def strStartsWith (s p : String) : Bool :=
  listStartsWith p.data s.data

/-- Fuel record, mirroring the frozen dataclass `Fuel` in `app.py`. -/
structure Fuel where
  label : String
  density_t_m3 : ℚ
  lhv_mj_kg : ℚ
  co2_factor_kg_t : ℚ
  price_usd_t : ℚ
deriving DecidableEq, Repr

/-- Vessel-class record, mirroring the frozen dataclass `VesselClass` in `app.py`. -/
structure VesselClass where
  name : String
  coefficient_a : ℚ
  cargo_tonnes : ℤ
deriving DecidableEq, Repr

/-- The `FUEL_DATA` dict of `app.py` as a lookup function (Python `dict[str, Fuel]`). -/
def FUEL_DATA (k : String) : Option Fuel :=
  if k = "VLSFO" then some ⟨"VLSFO", 0.97, 40.2, 3114, 650⟩
  else if k = "LNG" then some ⟨"LNG", 0.45, 50.0, 2750, 450⟩
  else if k = "Bio‑VLSFO" then some ⟨"Bio‑VLSFO", 0.93, 39.7, 180, 900⟩
  else if k = "Methanol" then some ⟨"Methanol", 0.79, 19.9, 1375, 550⟩
  else if k = "SMR (Nuclear)" then some ⟨"SMR (Nuclear)", 19.1, 80620, 0, 0⟩
  else none

/-- `A_HANDY = 24 / 16**3` from `app.py`. -/
def A_HANDY : ℚ := 24 / 16 ^ 3

/-- `A_SUPRA = 30 / 16**3` from `app.py`. -/
def A_SUPRA : ℚ := 30 / 16 ^ 3

/-- `A_PAN = 44 / 16**3` from `app.py`. -/
def A_PAN : ℚ := 44 / 16 ^ 3

/-- The `VESSEL_CLASSES` dict of `app.py` as a lookup function. -/
def VESSEL_CLASSES (k : String) : Option VesselClass :=
  if k = "Handysize (40 kt DWT)" then some ⟨"Handysize", A_HANDY, 40000⟩
  else if k = "Supramax (55 kt DWT)" then some ⟨"Supramax", A_SUPRA, 55000⟩
  else if k = "Panamax (75 kt DWT)" then some ⟨"Panamax", A_PAN, 75000⟩
  else none

/-- Errors the model can signal.  `keyNotFound` models Python's `KeyError` from
a dict lookup; `zeroDivision` models Python's `ZeroDivisionError`;
`invalidParameter` is the spec's InvalidParameter error (present in the
taxonomy so that claims about it can be stated; see whether the code ever
produces it). -/
inductive ModelError where
  | keyNotFound
  | zeroDivision
  | invalidParameter
deriving DecidableEq, Repr

/-- The result record returned by `run_model` in `app.py` (a `dict[str, float]`
with six fixed keys). -/
structure KPI where
  fuel_t : ℚ
  co2_t : ℚ
  fuel_spend : ℚ
  carbon_spend : ℚ
  total_spend : ℚ
  usd_per_tonne_mile : ℚ
deriving DecidableEq, Repr

/-- `penalty_factor` from `app.py`:
`fouling = 1 + foul/100; assist = 1 - (wind + solar)/100; max(fouling*assist, 0.7)`. -/
def penalty_factor (foul wind solar : ℚ) : ℚ :=
  max ((1 + foul / 100) * (1 - (wind + solar) / 100)) 0.7

/-- `voyage_days` from `app.py`: `dist_nm / (speed_kn * 24.0)`.  Python raises
`ZeroDivisionError` when the divisor is zero, modelled by the guard. -/
def voyage_days (dist_nm speed_kn : ℚ) : Except ModelError ℚ :=
  if speed_kn * 24 = 0 then .error .zeroDivision
  else .ok (dist_nm / (speed_kn * 24))

/-- The local `daily` binding of `fuel_tonnes` in `app.py`:
`vessel.coefficient_a * speed_kn**3 * penalty_factor(foul, wind, solar)`. -/
def daily_burn (vessel : VesselClass) (speed_kn foul wind solar : ℚ) : ℚ :=
  vessel.coefficient_a * speed_kn ^ 3 * penalty_factor foul wind solar

/-- `fuel_tonnes` from `app.py`: returns `0.0` when the fuel label starts with
`"SMR"`, otherwise `daily * voyage_days(dist_nm, speed_kn)`. -/
def fuel_tonnes (vessel : VesselClass) (fuel : Fuel)
    (speed_kn dist_nm foul wind solar : ℚ) : Except ModelError ℚ :=
  if strStartsWith fuel.label "SMR" then .ok 0
  else
    match voyage_days dist_nm speed_kn with
    | .error e => .error e
    | .ok days => .ok (daily_burn vessel speed_kn foul wind solar * days)

/-- `co2_t` from `app.py`: `fuel_t * fuel.co2_factor_kg_t / 1_000.0`. -/
def co2_t (fuel_t : ℚ) (fuel : Fuel) : ℚ :=
  fuel_t * fuel.co2_factor_kg_t / 1000

/-- `fuel_cost` from `app.py`: `fuel_t * fuel.price_usd_t`. -/
def fuel_cost (fuel_t : ℚ) (fuel : Fuel) : ℚ :=
  fuel_t * fuel.price_usd_t

/-- `carbon_cost` from `app.py`: `co2 * price`. -/
def carbon_cost (co2 price : ℚ) : ℚ :=
  co2 * price

/-- `usd_per_tonne_mile` from `app.py`: `total / (cargo_t * dist_nm)`, with
Python's `ZeroDivisionError` modelled by the guard. -/
def usd_per_tonne_mile (total : ℚ) (cargo_t : ℤ) (dist_nm : ℚ) : Except ModelError ℚ :=
  if (cargo_t : ℚ) * dist_nm = 0 then .error .zeroDivision
  else .ok (total / ((cargo_t : ℚ) * dist_nm))

/-- `run_model` from `app.py`: looks up the vessel and fuel (a missing key
raises `KeyError`), then computes the six outputs and returns them together. -/
def run_model (vessel_key fuel_key : String)
    (speed dist_nm foul wind solar co2_price : ℚ) : Except ModelError KPI :=
  match VESSEL_CLASSES vessel_key with
  | none => .error .keyNotFound
  | some vessel =>
    match FUEL_DATA fuel_key with
    | none => .error .keyNotFound
    | some fuel =>
      match fuel_tonnes vessel fuel speed dist_nm foul wind solar with
      | .error e => .error e
      | .ok fuel_t =>
        let co2 := co2_t fuel_t fuel
        let fuel_sp := fuel_cost fuel_t fuel
        let carb_sp := carbon_cost co2 co2_price
        let total := fuel_sp + carb_sp
        match usd_per_tonne_mile total vessel.cargo_tonnes dist_nm with
        | .error e => .error e
        | .ok ctm => .ok ⟨fuel_t, co2, fuel_sp, carb_sp, total, ctm⟩

/-- `run_model` raising InvalidParameter, as a decidable check on its result. -/
def raisesInvalidParameter : Except ModelError KPI → Bool
  | .error .invalidParameter => true
  | _ => false

/-- Every vessel class in the catalog has positive cargo tonnage. -/
theorem cargo_pos (vk : String) (vessel : VesselClass)
    (hv : VESSEL_CLASSES vk = some vessel) : 0 < vessel.cargo_tonnes := by
  unfold VESSEL_CLASSES at hv
  split_ifs at hv <;> injection hv with h <;> subst h <;> decide

/-- Every vessel class in the catalog has a positive propulsion coefficient. -/
theorem coefficient_pos (vk : String) (vessel : VesselClass)
    (hv : VESSEL_CLASSES vk = some vessel) : 0 < vessel.coefficient_a := by
  unfold VESSEL_CLASSES at hv
  split_ifs at hv <;> injection hv with h <;> subst h <;>
    norm_num [A_HANDY, A_SUPRA, A_PAN]

/-- Unfolding `run_model` on the non-error path for a combustion fuel. -/
theorem run_model_eq_ok (vk fk : String) (vessel : VesselClass) (fuel : Fuel)
    (speed dist_nm foul wind solar co2_price : ℚ)
    (hv : VESSEL_CLASSES vk = some vessel) (hf : FUEL_DATA fk = some fuel)
    (hsmr : strStartsWith fuel.label "SMR" = false)
    (hs : speed * 24 ≠ 0) (hc : (vessel.cargo_tonnes : ℚ) * dist_nm ≠ 0) :
    run_model vk fk speed dist_nm foul wind solar co2_price =
      .ok ⟨daily_burn vessel speed foul wind solar * (dist_nm / (speed * 24)),
           co2_t (daily_burn vessel speed foul wind solar * (dist_nm / (speed * 24))) fuel,
           fuel_cost (daily_burn vessel speed foul wind solar * (dist_nm / (speed * 24))) fuel,
           carbon_cost (co2_t (daily_burn vessel speed foul wind solar * (dist_nm / (speed * 24))) fuel) co2_price,
           fuel_cost (daily_burn vessel speed foul wind solar * (dist_nm / (speed * 24))) fuel +
             carbon_cost (co2_t (daily_burn vessel speed foul wind solar * (dist_nm / (speed * 24))) fuel) co2_price,
           (fuel_cost (daily_burn vessel speed foul wind solar * (dist_nm / (speed * 24))) fuel +
             carbon_cost (co2_t (daily_burn vessel speed foul wind solar * (dist_nm / (speed * 24))) fuel) co2_price) /
             ((vessel.cargo_tonnes : ℚ) * dist_nm)⟩ := by
  simp [run_model, hv, hf, fuel_tonnes, hsmr, voyage_days, hs,
    usd_per_tonne_mile, hc, co2_t, fuel_cost, carbon_cost]

/-- Unfolding `run_model` on the non-error path for an SMR-labelled fuel:
every output is zero. -/
theorem run_model_eq_ok_smr (vk fk : String) (vessel : VesselClass) (fuel : Fuel)
    (speed dist_nm foul wind solar co2_price : ℚ)
    (hv : VESSEL_CLASSES vk = some vessel) (hf : FUEL_DATA fk = some fuel)
    (hsmr : strStartsWith fuel.label "SMR" = true)
    (hc : (vessel.cargo_tonnes : ℚ) * dist_nm ≠ 0) :
    run_model vk fk speed dist_nm foul wind solar co2_price =
      .ok ⟨0, 0, 0, 0, 0, 0⟩ := by
  simp [run_model, hv, hf, fuel_tonnes, hsmr, usd_per_tonne_mile, hc,
    co2_t, fuel_cost, carbon_cost]

/-- Inversion: a successful `run_model` call determines the shape of its result. -/
theorem run_model_ok_inv (vk fk : String) (speed dist_nm foul wind solar co2_price : ℚ)
    (r : KPI) (h : run_model vk fk speed dist_nm foul wind solar co2_price = .ok r) :
    ∃ vessel fuel ft,
      VESSEL_CLASSES vk = some vessel ∧ FUEL_DATA fk = some fuel ∧
      fuel_tonnes vessel fuel speed dist_nm foul wind solar = .ok ft ∧
      r.fuel_t = ft ∧ r.co2_t = co2_t ft fuel ∧
      r.fuel_spend = fuel_cost ft fuel ∧
      r.carbon_spend = carbon_cost (co2_t ft fuel) co2_price ∧
      r.total_spend = fuel_cost ft fuel + carbon_cost (co2_t ft fuel) co2_price := by
  unfold run_model at h
  cases hv : VESSEL_CLASSES vk with
  | none => simp only [hv] at h; exact (Except.noConfusion h)
  | some vessel =>
    simp only [hv] at h
    cases hf : FUEL_DATA fk with
    | none => simp only [hf] at h; exact (Except.noConfusion h)
    | some fuel =>
      simp only [hf] at h
      cases hft : fuel_tonnes vessel fuel speed dist_nm foul wind solar with
      | error e => simp only [hft] at h; exact (Except.noConfusion h)
      | ok ft =>
        simp only [hft] at h
        by_cases hc : (vessel.cargo_tonnes : ℚ) * dist_nm = 0
        · simp [usd_per_tonne_mile, hc] at h
        · unfold usd_per_tonne_mile at h
          rw [if_neg hc] at h
          simp only [Except.ok.injEq] at h
          subst h
          exact ⟨vessel, fuel, ft, rfl, rfl, hft, rfl, rfl, rfl, rfl, rfl⟩

/-- On the combustion branch (`fuel.label` not starting with `"SMR"`) with a
nonzero divisor, `fuel_tonnes` computes the cubic burn formula times days. -/
theorem fuel_tonnes_eq_ok (vessel : VesselClass) (fuel : Fuel)
    (speed dist_nm foul wind solar : ℚ)
    (hsmr : strStartsWith fuel.label "SMR" = false) (hs : speed * 24 ≠ 0) :
    fuel_tonnes vessel fuel speed dist_nm foul wind solar =
      .ok (vessel.coefficient_a * speed ^ 3 * penalty_factor foul wind solar *
        (dist_nm / (speed * 24))) := by
  simp [fuel_tonnes, hsmr, voyage_days, hs, daily_burn]

/-- The only error `fuel_tonnes` can produce is a division-by-zero error. -/
theorem fuel_tonnes_error_shape (vessel : VesselClass) (fuel : Fuel)
    (speed dist_nm foul wind solar : ℚ) (e : ModelError)
    (h : fuel_tonnes vessel fuel speed dist_nm foul wind solar = .error e) :
    e = .zeroDivision := by
  unfold fuel_tonnes voyage_days at h
  split_ifs at h <;> simp_all

/-- The only error `usd_per_tonne_mile` can produce is a division-by-zero error. -/
theorem usd_error_shape (total : ℚ) (cargo_t : ℤ) (dist_nm : ℚ) (e : ModelError)
    (h : usd_per_tonne_mile total cargo_t dist_nm = .error e) :
    e = .zeroDivision := by
  unfold usd_per_tonne_mile at h
  split_ifs at h <;> simp_all

end MCCSE

namespace MCCSE

/-- C1 (counterexample): with speed `-1 ≤ 0`, known keys and otherwise valid
arguments, `run_model` raises nothing: it returns a fully computed result
record, so the claimed InvalidParameter rejection of non-positive speed does
not happen. -/
theorem C1_counterexample :
    ((-1 : ℚ) ≤ 0) ∧
    run_model "Panamax (75 kt DWT)" "VLSFO" (-1) 10000 0 0 0 100 =
      .ok ⟨6875/1536, 28545/2048, 2234375/768, 713625/512, 6609625/1536,
        52877/9216000000⟩ := by
  refine ⟨by norm_num, ?_⟩
  rw [run_model_eq_ok "Panamax (75 kt DWT)" "VLSFO" ⟨"Panamax", A_PAN, 75000⟩
    ⟨"VLSFO", 0.97, 40.2, 3114, 650⟩ (-1) 10000 0 0 0 100 rfl rfl rfl
    (by norm_num) (by norm_num)]
  norm_num [daily_burn, penalty_factor, co2_t, fuel_cost, carbon_cost, A_PAN,
    max_def]

/-- C1 (amended): `run_model` performs no input validation at all: it never
raises InvalidParameter, for any combination of keys, speed, distance,
percentages, or carbon price. -/
theorem C1_never_invalid_parameter (vk fk : String)
    (speed dist_nm foul wind solar co2_price : ℚ) :
    raisesInvalidParameter (run_model vk fk speed dist_nm foul wind solar co2_price)
      = false := by
  cases hv : VESSEL_CLASSES vk with
  | none => simp [run_model, hv, raisesInvalidParameter]
  | some vessel =>
    cases hf : FUEL_DATA fk with
    | none => simp [run_model, hv, hf, raisesInvalidParameter]
    | some fuel =>
      cases hft : fuel_tonnes vessel fuel speed dist_nm foul wind solar with
      | error e =>
        have he := fuel_tonnes_error_shape _ _ _ _ _ _ _ _ hft
        subst he
        simp [run_model, hv, hf, hft, raisesInvalidParameter]
      | ok ft =>
        cases hu : usd_per_tonne_mile
            (fuel_cost ft fuel + carbon_cost (co2_t ft fuel) co2_price)
            vessel.cargo_tonnes dist_nm with
        | error e =>
          have he := usd_error_shape _ _ _ _ hu
          subst he
          simp [run_model, hv, hf, hft, hu, raisesInvalidParameter]
        | ok ctm =>
          simp [run_model, hv, hf, hft, hu, raisesInvalidParameter]

/-- C4: a vessel or fuel key absent from the catalog makes `run_model` fail
with KeyNotFound (and nothing is computed), while each key present in the
catalog maps to its fixed immutable record. -/
theorem C4_key_lookup :
    (∀ (vk fk : String) (speed dist_nm foul wind solar co2_price : ℚ),
      VESSEL_CLASSES vk = none ∨ FUEL_DATA fk = none →
      run_model vk fk speed dist_nm foul wind solar co2_price =
        .error .keyNotFound) ∧
    VESSEL_CLASSES "Handysize (40 kt DWT)" = some ⟨"Handysize", A_HANDY, 40000⟩ ∧
    VESSEL_CLASSES "Supramax (55 kt DWT)" = some ⟨"Supramax", A_SUPRA, 55000⟩ ∧
    VESSEL_CLASSES "Panamax (75 kt DWT)" = some ⟨"Panamax", A_PAN, 75000⟩ ∧
    FUEL_DATA "VLSFO" = some ⟨"VLSFO", 0.97, 40.2, 3114, 650⟩ ∧
    FUEL_DATA "LNG" = some ⟨"LNG", 0.45, 50.0, 2750, 450⟩ ∧
    FUEL_DATA "Bio‑VLSFO" = some ⟨"Bio‑VLSFO", 0.93, 39.7, 180, 900⟩ ∧
    FUEL_DATA "Methanol" = some ⟨"Methanol", 0.79, 19.9, 1375, 550⟩ ∧
    FUEL_DATA "SMR (Nuclear)" = some ⟨"SMR (Nuclear)", 19.1, 80620, 0, 0⟩ := by
  refine ⟨?_, rfl, rfl, rfl, rfl, rfl, rfl, rfl, rfl⟩
  intro vk fk speed dist_nm foul wind solar co2_price h
  rcases h with h | h
  · simp [run_model, h]
  · cases hv : VESSEL_CLASSES vk with
    | none => simp [run_model, hv]
    | some vessel => simp [run_model, hv, h]

/-- C4 (witness): calling `run_model` with the unknown vessel key "Suezmax"
(resp. the unknown fuel key "Hydrogen") yields KeyNotFound. -/
theorem C4_key_lookup_witness :
    run_model "Suezmax" "VLSFO" 13 10000 0 0 0 100 = .error .keyNotFound ∧
    run_model "Panamax (75 kt DWT)" "Hydrogen" 13 10000 0 0 0 100 =
      .error .keyNotFound :=
  ⟨C4_key_lookup.1 "Suezmax" "VLSFO" 13 10000 0 0 0 100 (Or.inl rfl),
   C4_key_lookup.1 "Panamax (75 kt DWT)" "Hydrogen" 13 10000 0 0 0 100
     (Or.inr rfl)⟩

/-- C5: the efficiency penalty factor equals
`max ((1 + foul/100) * (1 - (wind+solar)/100)) 0.7` and is never below `0.7`,
for all percentage combinations (the function is total: no error is raised for
out-of-range percentages). -/
theorem C5_penalty_factor_floor (foul wind solar : ℚ) :
    penalty_factor foul wind solar =
      max ((1 + foul / 100) * (1 - (wind + solar) / 100)) 0.7 ∧
    0.7 ≤ penalty_factor foul wind solar :=
  ⟨rfl, le_max_right _ _⟩

/-- C5 (witness): at foulingPct = 0, windPct = 60, solarPct = 40 (assists
summing to 100), the factor is exactly the 0.7 floor and in particular is at
least 0.7. -/
theorem C5_penalty_factor_floor_witness :
    penalty_factor 0 60 40 =
      max ((1 + 0 / 100) * (1 - ((60 : ℚ) + 40) / 100)) 0.7 ∧
    0.7 ≤ penalty_factor 0 60 40 :=
  C5_penalty_factor_floor 0 60 40

/-- C2: for known keys, a combustion fuel, and positive speed and distance,
`run_model` returns all six outputs in one record, computed by the spec's
formulas: `days = dist/(speed*24)`, `fuelTonnes = a * speed^3 * factor * days`,
`co2 = fuelTonnes * co2Factor/1000`, `fuelSpend = fuelTonnes * price`,
`carbonSpend = co2 * carbonPrice`, `totalSpend = fuelSpend + carbonSpend`,
`usdPerTonneMile = totalSpend / (cargo * dist)`. -/
theorem C2_run_model_formulas (vk fk : String) (vessel : VesselClass)
    (fuel : Fuel) (speed dist_nm foul wind solar co2_price : ℚ)
    (hv : VESSEL_CLASSES vk = some vessel) (hf : FUEL_DATA fk = some fuel)
    (hsmr : strStartsWith fuel.label "SMR" = false)
    (hs : 0 < speed) (hd : 0 < dist_nm) :
    run_model vk fk speed dist_nm foul wind solar co2_price =
      .ok ⟨vessel.coefficient_a * speed ^ 3 * penalty_factor foul wind solar *
             (dist_nm / (speed * 24)),
           vessel.coefficient_a * speed ^ 3 * penalty_factor foul wind solar *
             (dist_nm / (speed * 24)) * fuel.co2_factor_kg_t / 1000,
           vessel.coefficient_a * speed ^ 3 * penalty_factor foul wind solar *
             (dist_nm / (speed * 24)) * fuel.price_usd_t,
           vessel.coefficient_a * speed ^ 3 * penalty_factor foul wind solar *
             (dist_nm / (speed * 24)) * fuel.co2_factor_kg_t / 1000 * co2_price,
           vessel.coefficient_a * speed ^ 3 * penalty_factor foul wind solar *
             (dist_nm / (speed * 24)) * fuel.price_usd_t +
             vessel.coefficient_a * speed ^ 3 * penalty_factor foul wind solar *
               (dist_nm / (speed * 24)) * fuel.co2_factor_kg_t / 1000 * co2_price,
           (vessel.coefficient_a * speed ^ 3 * penalty_factor foul wind solar *
             (dist_nm / (speed * 24)) * fuel.price_usd_t +
             vessel.coefficient_a * speed ^ 3 * penalty_factor foul wind solar *
               (dist_nm / (speed * 24)) * fuel.co2_factor_kg_t / 1000 * co2_price) /
             ((vessel.cargo_tonnes : ℚ) * dist_nm)⟩ := by
  have hs' : speed * 24 ≠ 0 := mul_ne_zero (ne_of_gt hs) (by norm_num)
  have hc : (vessel.cargo_tonnes : ℚ) * dist_nm ≠ 0 :=
    mul_ne_zero (Int.cast_ne_zero.mpr (cargo_pos vk vessel hv).ne') (ne_of_gt hd)
  rw [run_model_eq_ok vk fk vessel fuel speed dist_nm foul wind solar co2_price
    hv hf hsmr hs' hc]
  simp only [daily_burn, co2_t, fuel_cost, carbon_cost]

/-- C2 (witness): the Panamax/VLSFO scenario at 13 kn, 10000 nm, no
efficiency changes, carbon price 100, evaluated to exact rationals. -/
theorem C2_run_model_formulas_witness :
    run_model "Panamax (75 kt DWT)" "VLSFO" 13 10000 0 0 0 100 =
      .ok ⟨1161875/1536, 4824105/2048, 377609375/768, 120602625/512,
        1117026625/1536, 8936213/9216000000⟩ := by
  rw [C2_run_model_formulas "Panamax (75 kt DWT)" "VLSFO"
    ⟨"Panamax", A_PAN, 75000⟩ ⟨"VLSFO", 0.97, 40.2, 3114, 650⟩
    13 10000 0 0 0 100 rfl rfl rfl (by norm_num) (by norm_num)]
  norm_num [penalty_factor, A_PAN, max_def]

/-- C3: with the SMR (non-combustion) fuel, every vessel, positive speed and
distance, any percentages, and any carbon price, `run_model` returns zero fuel
burned, zero CO₂, zero fuel spend (and indeed all six outputs are zero). -/
theorem C3_zero_fuel (vk : String) (vessel : VesselClass)
    (speed dist_nm foul wind solar co2_price : ℚ)
    (hv : VESSEL_CLASSES vk = some vessel) (hs : 0 < speed) (hd : 0 < dist_nm) :
    run_model vk "SMR (Nuclear)" speed dist_nm foul wind solar co2_price =
      .ok ⟨0, 0, 0, 0, 0, 0⟩ := by
  have hc : (vessel.cargo_tonnes : ℚ) * dist_nm ≠ 0 :=
    mul_ne_zero (Int.cast_ne_zero.mpr (cargo_pos vk vessel hv).ne') (ne_of_gt hd)
  exact run_model_eq_ok_smr vk "SMR (Nuclear)" vessel
    ⟨"SMR (Nuclear)", 19.1, 80620, 0, 0⟩ speed dist_nm foul wind solar co2_price
    hv rfl rfl hc

/-- C3 (witness): SMR fuel on a Handysize at 12 kn over 8000 nm with nonzero
percentages and carbon price 100 yields the all-zero record. -/
theorem C3_zero_fuel_witness :
    run_model "Handysize (40 kt DWT)" "SMR (Nuclear)" 12 8000 5 10 3 100 =
      .ok ⟨0, 0, 0, 0, 0, 0⟩ :=
  C3_zero_fuel "Handysize (40 kt DWT)" ⟨"Handysize", A_HANDY, 40000⟩
    12 8000 5 10 3 100 rfl (by norm_num) (by norm_num)

/-- C6: doubling the speed multiplies the daily fuel burn
(`coefficient_a * speed^3 * factor`, before the voyage-days term) by exactly 8,
for every vessel class and every percentage combination. -/
theorem C6_daily_burn_cubic (vessel : VesselClass) (speed foul wind solar : ℚ) :
    daily_burn vessel (2 * speed) foul wind solar =
      8 * daily_burn vessel speed foul wind solar := by
  unfold daily_burn
  ring

/-- C7: for two `run_model` calls differing only in the carbon price, a
strictly larger carbon price gives a strictly larger total spend whenever
co2Tonnes is positive, and leaves total spend unchanged when co2Tonnes is
zero. -/
theorem C7_carbon_price_monotone (vk fk : String)
    (speed dist_nm foul wind solar p1 p2 : ℚ) (r1 r2 : KPI) (hp : p1 < p2)
    (h1 : run_model vk fk speed dist_nm foul wind solar p1 = .ok r1)
    (h2 : run_model vk fk speed dist_nm foul wind solar p2 = .ok r2) :
    (0 < r1.co2_t → r1.total_spend < r2.total_spend) ∧
    (r1.co2_t = 0 → r1.total_spend = r2.total_spend) := by
  obtain ⟨v1, fuel1, ft1, hv1, hf1, hft1, _, e2, _, _, e5⟩ :=
    run_model_ok_inv _ _ _ _ _ _ _ _ _ h1
  obtain ⟨v2, fuel2, ft2, hv2, hf2, hft2, _, _, _, _, g5⟩ :=
    run_model_ok_inv _ _ _ _ _ _ _ _ _ h2
  rw [hv1] at hv2; injection hv2 with hveq; subst hveq
  rw [hf1] at hf2; injection hf2 with hfeq; subst hfeq
  rw [hft1] at hft2; injection hft2 with hfteq; subst hfteq
  constructor
  · intro hpos
    rw [e2] at hpos
    rw [e5, g5]
    exact add_lt_add_left (mul_lt_mul_of_pos_left hp hpos) _
  · intro hz
    rw [e2] at hz
    rw [e5, g5]
    simp [carbon_cost, hz]

/-- C7 (witness): Panamax/VLSFO at 13 kn over 10000 nm with carbon prices 100
and 200: co2Tonnes is positive and the total spend strictly increases. -/
theorem C7_carbon_price_monotone_witness :
    ((0 : ℚ) < 4824105/2048 → (1117026625 : ℚ)/1536 < 369708625/384) ∧
    ((4824105 : ℚ)/2048 = 0 → (1117026625 : ℚ)/1536 = 369708625/384) :=
  C7_carbon_price_monotone "Panamax (75 kt DWT)" "VLSFO" 13 10000 0 0 0
    100 200
    ⟨1161875/1536, 4824105/2048, 377609375/768, 120602625/512,
      1117026625/1536, 8936213/9216000000⟩
    ⟨1161875/1536, 4824105/2048, 377609375/768, 120602625/256,
      369708625/384, 2957669/2304000000⟩
    (by norm_num)
    (by rw [run_model_eq_ok "Panamax (75 kt DWT)" "VLSFO"
          ⟨"Panamax", A_PAN, 75000⟩ ⟨"VLSFO", 0.97, 40.2, 3114, 650⟩
          13 10000 0 0 0 100 rfl rfl rfl (by norm_num) (by norm_num)]
        norm_num [daily_burn, penalty_factor, co2_t, fuel_cost, carbon_cost,
          A_PAN, max_def])
    (by rw [run_model_eq_ok "Panamax (75 kt DWT)" "VLSFO"
          ⟨"Panamax", A_PAN, 75000⟩ ⟨"VLSFO", 0.97, 40.2, 3114, 650⟩
          13 10000 0 0 0 200 rfl rfl rfl (by norm_num) (by norm_num)]
        norm_num [daily_burn, penalty_factor, co2_t, fuel_cost, carbon_cost,
          A_PAN, max_def])

/-- C8 (counterexample): the Panamax/VLSFO scenario evaluates exactly; the
spec's quoted fuelTonnes ≈ 756.7, co2Tonnes ≈ 2355.4, carbonSpend ≈ 235540
and totalSpend ≈ 727240 all miss the computed values (≈ 756.43, ≈ 2355.52,
≈ 235552.0, ≈ 727230.9) by more than half a unit in their last displayed
digit, far beyond floating-point tolerance. -/
theorem C8_counterexample :
    run_model "Panamax (75 kt DWT)" "VLSFO" 13 10000 0 0 0 100 =
      .ok ⟨1161875/1536, 4824105/2048, 377609375/768, 120602625/512,
        1117026625/1536, 8936213/9216000000⟩ ∧
    ¬((7567 : ℚ)/10 - 1/20 ≤ 1161875/1536 ∧
      (1161875 : ℚ)/1536 ≤ 7567/10 + 1/20) ∧
    ¬((23554 : ℚ)/10 - 1/20 ≤ 4824105/2048 ∧
      (4824105 : ℚ)/2048 ≤ 23554/10 + 1/20) ∧
    ¬((235540 : ℚ) - 5 ≤ 120602625/512 ∧
      (120602625 : ℚ)/512 ≤ 235540 + 5) ∧
    ¬((727240 : ℚ) - 5 ≤ 1117026625/1536 ∧
      (1117026625 : ℚ)/1536 ≤ 727240 + 5) := by
  refine ⟨?_, fun h => absurd h.1 (by norm_num), fun h => absurd h.2 (by norm_num),
    fun h => absurd h.2 (by norm_num), fun h => absurd h.1 (by norm_num)⟩
  rw [run_model_eq_ok "Panamax (75 kt DWT)" "VLSFO"
    ⟨"Panamax", A_PAN, 75000⟩ ⟨"VLSFO", 0.97, 40.2, 3114, 650⟩
    13 10000 0 0 0 100 rfl rfl rfl (by norm_num) (by norm_num)]
  norm_num [daily_burn, penalty_factor, co2_t, fuel_cost, carbon_cost, A_PAN,
    max_def]

/-- C8 (amended): the Panamax/VLSFO scenario gives factor = 1,
days ≈ 32.0513, daily burn ≈ 23.60, fuelTonnes ≈ 756.4, co2Tonnes ≈ 2355.5,
fuelSpend ≈ 491700, carbonSpend ≈ 235550, totalSpend ≈ 727230,
usdPerTonneMile ≈ 0.000970, each within half a unit of its last displayed
digit (fuelSpend within 50). -/
theorem C8_concrete_scenario :
    run_model "Panamax (75 kt DWT)" "VLSFO" 13 10000 0 0 0 100 =
      .ok ⟨1161875/1536, 4824105/2048, 377609375/768, 120602625/512,
        1117026625/1536, 8936213/9216000000⟩ ∧
    penalty_factor 0 0 0 = 1 ∧
    voyage_days 10000 13 = .ok (1250/39) ∧
    ((320513 : ℚ)/10000 - 1/20000 ≤ 1250/39 ∧
      (1250 : ℚ)/39 ≤ 320513/10000 + 1/20000) ∧
    daily_burn ⟨"Panamax", A_PAN, 75000⟩ 13 0 0 0 = 24167/1024 ∧
    ((236 : ℚ)/10 - 1/200 ≤ 24167/1024 ∧ (24167 : ℚ)/1024 ≤ 236/10 + 1/200) ∧
    ((7564 : ℚ)/10 - 1/20 ≤ 1161875/1536 ∧
      (1161875 : ℚ)/1536 ≤ 7564/10 + 1/20) ∧
    ((23555 : ℚ)/10 - 1/20 ≤ 4824105/2048 ∧
      (4824105 : ℚ)/2048 ≤ 23555/10 + 1/20) ∧
    ((491700 : ℚ) - 50 ≤ 377609375/768 ∧
      (377609375 : ℚ)/768 ≤ 491700 + 50) ∧
    ((235550 : ℚ) - 5 ≤ 120602625/512 ∧
      (120602625 : ℚ)/512 ≤ 235550 + 5) ∧
    ((727230 : ℚ) - 5 ≤ 1117026625/1536 ∧
      (1117026625 : ℚ)/1536 ≤ 727230 + 5) ∧
    ((970 : ℚ)/1000000 - 1/2000000 ≤ 8936213/9216000000 ∧
      (8936213 : ℚ)/9216000000 ≤ 970/1000000 + 1/2000000) := by
  refine ⟨?_, by norm_num [penalty_factor, max_def],
    by norm_num [voyage_days], by constructor <;> norm_num,
    by norm_num [daily_burn, penalty_factor, A_PAN, max_def],
    by constructor <;> norm_num, by constructor <;> norm_num,
    by constructor <;> norm_num, by constructor <;> norm_num,
    by constructor <;> norm_num, by constructor <;> norm_num,
    by constructor <;> norm_num⟩
  rw [run_model_eq_ok "Panamax (75 kt DWT)" "VLSFO"
    ⟨"Panamax", A_PAN, 75000⟩ ⟨"VLSFO", 0.97, 40.2, 3114, 650⟩
    13 10000 0 0 0 100 rfl rfl rfl (by norm_num) (by norm_num)]
  norm_num [daily_burn, penalty_factor, co2_t, fuel_cost, carbon_cost, A_PAN,
    max_def]

/-- C9: the non-combustion fuel is detected purely by the "SMR" label prefix:
any fuel record whose label starts with "SMR" gets fuel burn exactly 0
whatever its other fields and parameters are, while any fuel record whose
label does not (even a hypothetical zero-CO₂, zero-price one) gets the full
cubic burn formula. -/
theorem C9_smr_label_detection (vessel : VesselClass) (fuel : Fuel)
    (speed dist_nm foul wind solar : ℚ) :
    (strStartsWith fuel.label "SMR" = true →
      fuel_tonnes vessel fuel speed dist_nm foul wind solar = .ok 0) ∧
    (strStartsWith fuel.label "SMR" = false → speed * 24 ≠ 0 →
      fuel_tonnes vessel fuel speed dist_nm foul wind solar =
        .ok (vessel.coefficient_a * speed ^ 3 * penalty_factor foul wind solar *
          (dist_nm / (speed * 24)))) := by
  constructor
  · intro h
    simp [fuel_tonnes, h]
  · intro h hs
    exact fuel_tonnes_eq_ok vessel fuel speed dist_nm foul wind solar h hs

/-- C9 (witness): the catalog's SMR fuel burns 0 tonnes, while a hypothetical
non-SMR fuel with zero CO₂ factor and zero price still gets the full cubic
formula. -/
theorem C9_smr_label_detection_witness :
    fuel_tonnes ⟨"Panamax", A_PAN, 75000⟩ ⟨"SMR (Nuclear)", 19.1, 80620, 0, 0⟩
      13 10000 0 0 0 = .ok 0 ∧
    fuel_tonnes ⟨"Panamax", A_PAN, 75000⟩ ⟨"Hydrogen", 7/100, 120, 0, 0⟩
      13 10000 0 0 0 =
      .ok (A_PAN * 13 ^ 3 * penalty_factor 0 0 0 * (10000 / (13 * 24))) :=
  ⟨(C9_smr_label_detection _ _ _ _ _ _ _).1 rfl,
   (C9_smr_label_detection _ _ _ _ _ _ _).2 rfl (by norm_num)⟩

/-- C10 (implicit): for a combustion fuel, a catalog-style vessel (positive
coefficient) and positive distance, the total voyage fuel burn equals
`a * speed^2 * factor * dist / 24` — square, not cube, because the cubic
daily burn is multiplied by days inversely proportional to speed — and is
strictly increasing in speed on speed > 0. -/
theorem C10_speed_square_scaling (vessel : VesselClass) (fuel : Fuel)
    (dist_nm foul wind solar s1 s2 : ℚ)
    (hsmr : strStartsWith fuel.label "SMR" = false)
    (ha : 0 < vessel.coefficient_a) (hd : 0 < dist_nm)
    (h1 : 0 < s1) (h12 : s1 < s2) :
    fuel_tonnes vessel fuel s1 dist_nm foul wind solar =
      .ok (vessel.coefficient_a * s1 ^ 2 * penalty_factor foul wind solar *
        dist_nm / 24) ∧
    fuel_tonnes vessel fuel s2 dist_nm foul wind solar =
      .ok (vessel.coefficient_a * s2 ^ 2 * penalty_factor foul wind solar *
        dist_nm / 24) ∧
    vessel.coefficient_a * s1 ^ 2 * penalty_factor foul wind solar *
        dist_nm / 24 <
      vessel.coefficient_a * s2 ^ 2 * penalty_factor foul wind solar *
        dist_nm / 24 := by
  have h2 : 0 < s2 := h1.trans h12
  have hF : (0.7 : ℚ) ≤ penalty_factor foul wind solar := le_max_right _ _
  have hFpos : 0 < penalty_factor foul wind solar :=
    lt_of_lt_of_le (by norm_num) hF
  refine ⟨?_, ?_, ?_⟩
  · rw [fuel_tonnes_eq_ok vessel fuel s1 dist_nm foul wind solar hsmr
      (mul_ne_zero (ne_of_gt h1) (by norm_num))]
    congr 1
    field_simp
    ring
  · rw [fuel_tonnes_eq_ok vessel fuel s2 dist_nm foul wind solar hsmr
      (mul_ne_zero (ne_of_gt h2) (by norm_num))]
    congr 1
    field_simp
    ring
  · have key : 0 < vessel.coefficient_a * penalty_factor foul wind solar *
        dist_nm := mul_pos (mul_pos ha hFpos) hd
    have hs2 : s1 ^ 2 < s2 ^ 2 := by nlinarith
    nlinarith [mul_lt_mul_of_pos_left hs2 key]

/-- C10 (witness): Panamax with VLSFO over 10000 nm at 13 kn versus 14 kn:
both burns follow the square-law formula and the burn strictly increases. -/
theorem C10_speed_square_scaling_witness :
    fuel_tonnes ⟨"Panamax", A_PAN, 75000⟩ ⟨"VLSFO", 0.97, 40.2, 3114, 650⟩
      13 10000 0 0 0 =
      .ok (A_PAN * 13 ^ 2 * penalty_factor 0 0 0 * 10000 / 24) ∧
    fuel_tonnes ⟨"Panamax", A_PAN, 75000⟩ ⟨"VLSFO", 0.97, 40.2, 3114, 650⟩
      14 10000 0 0 0 =
      .ok (A_PAN * 14 ^ 2 * penalty_factor 0 0 0 * 10000 / 24) ∧
    A_PAN * 13 ^ 2 * penalty_factor 0 0 0 * 10000 / 24 <
      A_PAN * 14 ^ 2 * penalty_factor 0 0 0 * 10000 / 24 :=
  C10_speed_square_scaling ⟨"Panamax", A_PAN, 75000⟩
    ⟨"VLSFO", 0.97, 40.2, 3114, 650⟩ 10000 0 0 0 13 14 rfl
    (by norm_num [A_PAN]) (by norm_num) (by norm_num) (by norm_num)

end MCCSE
